import Mathlib

/-!
Verification of the configuration validation logic of the Logwell Python SDK
(`src/sdks/python/src/logwell/config.py`).

Modelling decisions (shallow embedding of the Python source):

* Python runtime values that can appear in a configuration dict are modelled by
  the inductive type `PyVal`: strings, arbitrary-precision integers, floats
  (modelled exactly as rationals, so comparisons with zero are exact; the
  non-finite values NaN/inf are outside the model), booleans, `None`, and
  opaque callback references.
* A configuration dict is an association list `List (String × PyVal)`; `dget`
  models `config[k]` / `k in config` lookup and `configGet` models
  `config.get(k, default)`.
* Raising `LogwellError(msg, LogwellErrorCode.INVALID_CONFIG)` is modelled by
  `Except.error (PyError.logwell msg .INVALID_CONFIG)`.  A Python `TypeError`
  raised by an order comparison such as `config["batch_size"] <= 0` on a
  non-numeric value is modelled by `Except.error (PyError.typeError msg)`.
* `re.match(r"^lw_[A-Za-z0-9_-]{32}$", s)` is modelled by `apiKeyMatch`,
  including the CPython semantics of `$`, which also matches just before a
  single trailing newline at the end of the string.
* `urllib.parse.urlparse` is modelled by `urlsplitE`, covering the parts the
  code consults: leading/trailing C0-control-or-space stripping, removal of
  tab/CR/LF, scheme extraction (first-char ASCII letter, scheme characters
  letters/digits/`+`/`-`/`.` up to the first `:`), netloc extraction after
  `//` up to the first `/`, `?` or `#`, and the `ValueError("Invalid IPv6
  URL")` raised on unbalanced square brackets in the netloc.  The
  bracketed-host wellformedness check of newest CPython versions is not
  modelled; no theorem below depends on bracketed hosts being accepted.
-/

namespace Logwell

/-- A Python runtime value, as far as the configuration code can observe it. -/
inductive PyVal where
  | str (s : String)
  | int (n : Int)
  | float (q : ℚ)
  | bool (b : Bool)
  | pynone
  | callback (id : Nat)
deriving DecidableEq, Repr

/-- Python truthiness (`bool(v)`) for the modelled values. -/
def pyTruthy : PyVal → Bool
  | .str s => !(s.isEmpty)
  | .int n => decide (n ≠ 0)
  | .float q => decide (q ≠ 0)
  | .bool b => b
  | .pynone => false
  | .callback _ => true

/-- Python type name of a value, used in `TypeError` messages. -/
def pyTypeName : PyVal → String
  | .str _ => "str"
  | .int _ => "int"
  | .float _ => "float"
  | .bool _ => "bool"
  | .pynone => "NoneType"
  | .callback _ => "function"

/-- The `LogwellErrorCode` enum from `logwell.errors` (only the member used here). -/
inductive LogwellErrorCode where
  | INVALID_CONFIG
deriving DecidableEq, Repr

/-- An exception escaping `validate_config`: either a raised `LogwellError`
or a `TypeError` from an order comparison on a non-numeric value. -/
inductive PyError where
  | logwell (msg : String) (code : LogwellErrorCode)
  | typeError (msg : String)
deriving DecidableEq, Repr

/-- Holds exactly on the modelled `LogwellError` (code `INVALID_CONFIG`). -/
def isInvalidConfigError : PyError → Bool
  | .logwell _ _ => true
  | .typeError _ => false

/-- A configuration dict: an association list from string keys to values. -/
abbrev RawConfig := List (String × PyVal)

/-- Dict lookup: `config[k]` when the key is present, `none` otherwise
(`k in config` is `(dget c k).isSome`). -/
def dget : RawConfig → String → Option PyVal
  | [], _ => none
  | (k, v) :: rest, key => if key = k then some v else dget rest key

/-- Accessing `config[k]` under a presence guarantee (defaulting to `None` otherwise,
which never happens at the call sites). -/
def getV (c : RawConfig) (k : String) : PyVal :=
  (dget c k).getD .pynone

/-- The dict method `config.get(k, d)`. -/
def configGet (c : RawConfig) (k : String) (d : PyVal) : PyVal :=
  (dget c k).getD d

/-- The constant `DEFAULT_CONFIG` from `config.py` lines 17-23. -/
def DEFAULT_CONFIG : RawConfig :=
  [("batch_size", .int 50),
   ("flush_interval", .float 5),
   ("max_queue_size", .int 1000),
   ("max_retries", .int 3),
   ("capture_source_location", .bool false)]

/-- Membership in the character class `[A-Za-z0-9_-]` of `API_KEY_REGEX`. -/
def isApiKeyClassChar (c : Char) : Bool :=
  (decide ('A' ≤ c) && decide (c ≤ 'Z')) ||
  (decide ('a' ≤ c) && decide (c ≤ 'z')) ||
  (decide ('0' ≤ c) && decide (c ≤ '9')) ||
  c = '_' || c = '-'

/-- The body of `API_KEY_REGEX`: `lw_` followed by exactly 32 characters of
the class, consuming the whole character list. -/
def apiKeyBody : List Char → Bool
  | c1 :: c2 :: c3 :: rest =>
      decide (c1 = 'l') && decide (c2 = 'w') && decide (c3 = '_') &&
        decide (rest.length = 32) && rest.all isApiKeyClassChar
  | _ => false

/-- Models `bool(API_KEY_REGEX.match(s))` for the compiled pattern
`lw_[A-Za-z0-9_-]\x7b32\x7d` anchored with `^` and `$`.
CPython `$` (without `re.MULTILINE`) matches at the end of the string or just
before a newline at the end of the string, so a single trailing `\n` after the
32 class characters is also accepted. -/
def apiKeyMatch (s : String) : Bool :=
  apiKeyBody s.data ||
    (s.data.getLast? = some '\n' && apiKeyBody s.data.dropLast)

/-- The function `validate_api_key_format` from `config.py` lines 29-40 (called with an
arbitrary dict value, hence `PyVal`): falsy or non-string input returns
`false`, otherwise the regex match decides. -/
def validate_api_key_format (api_key : PyVal) : Bool :=
  if !(pyTruthy api_key) then false
  else
    match api_key with
    | .str s => apiKeyMatch s
    | _ => false

/-- Characters stripped from both ends by CPython `urlsplit`
(C0 controls and space). -/
def isC0ControlOrSpace (c : Char) : Bool :=
  decide (c.toNat ≤ 0x20)

/-- The bytes CPython `urlsplit` removes everywhere (`\t`, `\r`, `\n`). -/
def isUnsafeUrlChar (c : Char) : Bool :=
  c = '\t' || c = '\r' || c = '\n'

/-- CPython `scheme_chars`: ASCII letters, digits, `+`, `-`, `.`. -/
def isSchemeChar (c : Char) : Bool :=
  c.isAlpha || c.isDigit || c = '+' || c = '-' || c = '.'

/-- Scheme extraction of CPython `urlsplit`: if the text before the first `:`
is non-empty, starts with an ASCII letter, and consists of scheme characters,
it is the (lowercased) scheme and the rest follows the colon; otherwise the
scheme is empty and the input is left untouched. -/
def splitScheme (l : List Char) : List Char × List Char :=
  match l.span (fun c => !(c = ':')) with
  | (before, rest) =>
    match rest with
    | _ :: after =>
      if hb : before ≠ [] then
        if (before.head hb).isAlpha && before.all isSchemeChar then
          (before.map Char.toLower, after)
        else ([], l)
      else ([], l)
    | [] => ([], l)

/-- Netloc extraction of CPython `urlsplit`: after a leading `//`, the netloc
extends up to the first `/`, `?` or `#`. -/
def splitNetloc (l : List Char) : List Char × List Char :=
  match l with
  | '/' :: '/' :: rest =>
      rest.span (fun c => !(c = '/' || c = '?' || c = '#'))
  | _ => ([], l)

/-- Whether the netloc has a `[` without `]` or vice versa, which makes
CPython `urlsplit` raise `ValueError("Invalid IPv6 URL")`. -/
def bracketMismatch (n : List Char) : Bool :=
  (n.contains '[' && !(n.contains ']')) ||
  (n.contains ']' && !(n.contains '['))

/-- The components of a parse result consulted by `_is_valid_url`. -/
structure UrlSplitResult where
  scheme : String
  netloc : String
deriving DecidableEq, Repr

/-- Models `urllib.parse.urlparse` restricted to the scheme/netloc components, with
`Except.error` modelling a raised `ValueError`. -/
def urlsplitE (s : String) : Except String UrlSplitResult :=
  let l := ((s.data.dropWhile isC0ControlOrSpace).reverse.dropWhile
      isC0ControlOrSpace).reverse
  let l := l.filter (fun c => !(isUnsafeUrlChar c))
  let p := splitScheme l
  let q := splitNetloc p.2
  if bracketMismatch q.1 then .error "Invalid IPv6 URL"
  else .ok ⟨String.mk p.1, String.mk q.1⟩

/-- The function `_is_valid_url` from `config.py` lines 43-56: parse, then require both a
non-empty scheme and a non-empty netloc; any `ValueError`/`AttributeError`
(including the ones `urlparse` raises on the modelled non-string values) is
caught and yields `false`. -/
def _is_valid_url (url : PyVal) : Bool :=
  match url with
  | .str s =>
      match urlsplitE s with
      | .ok r => !(r.scheme.isEmpty) && !(r.netloc.isEmpty)
      | .error _ => false
  | _ => false

/-- Python `v <= 0` for a dict value: defined on int/float/bool (with
`False = 0`, `True = 1`), a `TypeError` otherwise. -/
def pyLeZero : PyVal → Except PyError Bool
  | .int n => .ok (decide (n ≤ 0))
  | .float q => .ok (decide (q ≤ 0))
  | .bool b => .ok (decide ((if b then (1 : Int) else 0) ≤ 0))
  | v => .error (.typeError
      ("unsupported comparison between instances of " ++ pyTypeName v ++ " and int"))

/-- Python `v < 0` for a dict value, analogously. -/
def pyLtZero : PyVal → Except PyError Bool
  | .int n => .ok (decide (n < 0))
  | .float q => .ok (decide (q < 0))
  | .bool b => .ok (decide ((if b then (1 : Int) else 0) < 0))
  | v => .error (.typeError
      ("unsupported comparison between instances of " ++ pyTypeName v ++ " and int"))

/-- Models `"k" in config and config["k"] <= 0`: short-circuits to `false` when the
key is absent, otherwise the comparison (which may raise). -/
def presentAndLeZero (c : RawConfig) (k : String) : Except PyError Bool :=
  match dget c k with
  | none => .ok false
  | some v => pyLeZero v

/-- Models `"k" in config and config["k"] < 0`, analogously. -/
def presentAndLtZero (c : RawConfig) (k : String) : Except PyError Bool :=
  match dget c k with
  | none => .ok false
  | some v => pyLtZero v

/-- The singleton entry `{k: config[k]}` when the key is present, empty
otherwise; models the conditional `merged[k] = config[k]` additions. -/
def optEntry (config : RawConfig) (k : String) : RawConfig :=
  if (dget config k).isSome then [(k, getV config k)] else []

/-- The dict literal of `config.py` lines 124-134: the seven core fields,
optional ones defaulted through `config.get(k, DEFAULT_CONFIG[k])`. -/
def coreMerged (config : RawConfig) : RawConfig :=
  [("api_key", getV config "api_key"),
   ("endpoint", getV config "endpoint"),
   ("batch_size", configGet config "batch_size" (getV DEFAULT_CONFIG "batch_size")),
   ("flush_interval",
     configGet config "flush_interval" (getV DEFAULT_CONFIG "flush_interval")),
   ("max_queue_size",
     configGet config "max_queue_size" (getV DEFAULT_CONFIG "max_queue_size")),
   ("max_retries", configGet config "max_retries" (getV DEFAULT_CONFIG "max_retries")),
   ("capture_source_location",
     configGet config "capture_source_location"
       (getV DEFAULT_CONFIG "capture_source_location"))]

/-- The `merged` dict built in `config.py` lines 124-144: the seven core
fields, then `service`, `on_error`, `on_flush` appended only if present. -/
def mergedOf (config : RawConfig) : RawConfig :=
  coreMerged config ++ optEntry config "service" ++ optEntry config "on_error"
    ++ optEntry config "on_flush"

/-- The function `validate_config` from `config.py` lines 59-146. -/
def validate_config (config : RawConfig) : Except PyError RawConfig :=
  if (dget config "api_key").isNone || !(pyTruthy (getV config "api_key")) then
    .error (.logwell "api_key is required" .INVALID_CONFIG)
  else if (dget config "endpoint").isNone || !(pyTruthy (getV config "endpoint")) then
    .error (.logwell "endpoint is required" .INVALID_CONFIG)
  else if !(validate_api_key_format (getV config "api_key")) then
    .error (.logwell "Invalid API key format. Expected: lw_[32 characters]"
      .INVALID_CONFIG)
  else if !(_is_valid_url (getV config "endpoint")) then
    .error (.logwell "Invalid endpoint URL" .INVALID_CONFIG)
  else
    match presentAndLeZero config "batch_size" with
    | .error e => .error e
    | .ok true => .error (.logwell "batch_size must be positive" .INVALID_CONFIG)
    | .ok false =>
      match presentAndLeZero config "flush_interval" with
      | .error e => .error e
      | .ok true => .error (.logwell "flush_interval must be positive" .INVALID_CONFIG)
      | .ok false =>
        match presentAndLeZero config "max_queue_size" with
        | .error e => .error e
        | .ok true => .error (.logwell "max_queue_size must be positive" .INVALID_CONFIG)
        | .ok false =>
          match presentAndLtZero config "max_retries" with
          | .error e => .error e
          | .ok true =>
            .error (.logwell "max_retries must be non-negative" .INVALID_CONFIG)
          | .ok false => .ok (mergedOf config)

/-- The API-key shape as the spec words it: `lw_` followed by exactly 32
characters drawn from `[A-Za-z0-9_-]` — no more, no fewer.  Written from the
spec, for comparison against the code predicate `validate_api_key_format`. -/
def specApiKeyShape (s : String) : Bool :=
  decide (s.data.take 3 = ['l', 'w', '_']) && decide (s.data.length = 35) &&
    (s.data.drop 3).all isApiKeyClassChar

/-- The value is a Python `int` (excluding `bool`). -/
def isIntVal : PyVal → Bool
  | .int _ => true
  | _ => false

/-- The value is a Python number: `int` or `float` (excluding `bool`). -/
def isNumVal : PyVal → Bool
  | .int _ => true
  | .float _ => true
  | _ => false

/-- The value is a Python `bool`. -/
def isBoolVal : PyVal → Bool
  | .bool _ => true
  | _ => false

/-- The value is order-comparable with `0` in Python: `int`, `float` or
`bool`. -/
def isComparableVal : PyVal → Bool
  | .int _ => true
  | .float _ => true
  | .bool _ => true
  | _ => false

/-- The value is a strictly positive number. -/
def pyNumPos : PyVal → Bool
  | .int n => decide (0 < n)
  | .float q => decide (0 < q)
  | _ => false

/-- The conjunction of the conditions under which `validate_config` reaches
the merge step, phrased exactly as the branch conditions of the code. -/
def reqChecksPass (c : RawConfig) : Prop :=
  ((dget c "api_key").isNone || !(pyTruthy (getV c "api_key"))) = false ∧
  ((dget c "endpoint").isNone || !(pyTruthy (getV c "endpoint"))) = false ∧
  validate_api_key_format (getV c "api_key") = true ∧
  _is_valid_url (getV c "endpoint") = true ∧
  presentAndLeZero c "batch_size" = .ok false ∧
  presentAndLeZero c "flush_interval" = .ok false ∧
  presentAndLeZero c "max_queue_size" = .ok false ∧
  presentAndLtZero c "max_retries" = .ok false

/-- The keys `validate_config` ever places in its output. -/
def recognizedKeys : List String :=
  ["api_key", "endpoint", "batch_size", "flush_interval", "max_queue_size",
   "max_retries", "capture_source_location", "service", "on_error", "on_flush"]

/-- The four numeric option keys checked against `0`. -/
def numericKeys : List String :=
  ["batch_size", "flush_interval", "max_queue_size", "max_retries"]

/-- The reason strings of the enumerated `InvalidConfig` checks. -/
def enumeratedMessages : List String :=
  ["api_key is required", "endpoint is required",
   "Invalid API key format. Expected: lw_[32 characters]", "Invalid endpoint URL",
   "batch_size must be positive", "flush_interval must be positive",
   "max_queue_size must be positive", "max_retries must be non-negative"]

/-- A well-formed API key: `lw_` followed by 32 `a` characters. -/
def goodKey : String := "lw_aaaaaaaaaaaaaaaaaaaaaaaaaaaaaaaa"

/-! ### Dict lookup lemmas -/

theorem dget_append (l r : RawConfig) (k : String) :
    dget (l ++ r) k = (dget l k).or (dget r k) := by
  induction l with
  | nil => simp [dget]
  | cons p t ih =>
    obtain ⟨k', v⟩ := p
    by_cases hk : k = k'
    · simp [dget, hk]
    · simp [dget, hk, ih]

theorem dget_optEntry_self (c : RawConfig) (k : String) :
    dget (optEntry c k) k = dget c k := by
  unfold optEntry
  split
  · rename_i h
    obtain ⟨v, hv⟩ := Option.isSome_iff_exists.mp h
    simp [dget, getV, hv]
  · rename_i h
    rw [Option.not_isSome_iff_eq_none] at h
    simp [dget, h]

theorem dget_optEntry_ne (c : RawConfig) {k k' : String} (h : k' ≠ k) :
    dget (optEntry c k) k' = none := by
  unfold optEntry
  split <;> simp [dget, h]

/-! ### Lookups in the merged output -/

theorem dget_mergedOf_api_key (c : RawConfig) :
    dget (mergedOf c) "api_key" = some (getV c "api_key") := rfl

theorem dget_mergedOf_endpoint (c : RawConfig) :
    dget (mergedOf c) "endpoint" = some (getV c "endpoint") := rfl

theorem dget_mergedOf_batch_size (c : RawConfig) :
    dget (mergedOf c) "batch_size" = some (configGet c "batch_size" (.int 50)) := rfl

theorem dget_mergedOf_flush_interval (c : RawConfig) :
    dget (mergedOf c) "flush_interval" =
      some (configGet c "flush_interval" (.float 5)) := rfl

theorem dget_mergedOf_max_queue_size (c : RawConfig) :
    dget (mergedOf c) "max_queue_size" =
      some (configGet c "max_queue_size" (.int 1000)) := rfl

theorem dget_mergedOf_max_retries (c : RawConfig) :
    dget (mergedOf c) "max_retries" = some (configGet c "max_retries" (.int 3)) := rfl

theorem dget_mergedOf_capture (c : RawConfig) :
    dget (mergedOf c) "capture_source_location" =
      some (configGet c "capture_source_location" (.bool false)) := rfl

theorem dget_coreMerged_service (c : RawConfig) :
    dget (coreMerged c) "service" = none := rfl

theorem dget_coreMerged_on_error (c : RawConfig) :
    dget (coreMerged c) "on_error" = none := rfl

theorem dget_coreMerged_on_flush (c : RawConfig) :
    dget (coreMerged c) "on_flush" = none := rfl

theorem dget_mergedOf_service (c : RawConfig) :
    dget (mergedOf c) "service" = dget c "service" := by
  unfold mergedOf
  rw [dget_append, dget_append, dget_append, dget_coreMerged_service,
    dget_optEntry_self, dget_optEntry_ne c (by decide), dget_optEntry_ne c (by decide)]
  simp

theorem dget_mergedOf_on_error (c : RawConfig) :
    dget (mergedOf c) "on_error" = dget c "on_error" := by
  unfold mergedOf
  rw [dget_append, dget_append, dget_append, dget_coreMerged_on_error,
    dget_optEntry_self, dget_optEntry_ne c (by decide), dget_optEntry_ne c (by decide)]
  simp

theorem dget_mergedOf_on_flush (c : RawConfig) :
    dget (mergedOf c) "on_flush" = dget c "on_flush" := by
  unfold mergedOf
  rw [dget_append, dget_append, dget_append, dget_coreMerged_on_flush,
    dget_optEntry_self, dget_optEntry_ne c (by decide), dget_optEntry_ne c (by decide)]
  simp

theorem dget_coreMerged_other (c : RawConfig) {k : String}
    (h1 : k ≠ "api_key") (h2 : k ≠ "endpoint") (h3 : k ≠ "batch_size")
    (h4 : k ≠ "flush_interval") (h5 : k ≠ "max_queue_size") (h6 : k ≠ "max_retries")
    (h7 : k ≠ "capture_source_location") :
    dget (coreMerged c) k = none := by
  simp [coreMerged, dget, h1, h2, h3, h4, h5, h6, h7]

theorem dget_mergedOf_other (c : RawConfig) {k : String}
    (h : ¬ k ∈ recognizedKeys) : dget (mergedOf c) k = none := by
  simp [recognizedKeys] at h
  obtain ⟨h1, h2, h3, h4, h5, h6, h7, h8, h9, h10⟩ := h
  unfold mergedOf
  rw [dget_append, dget_append, dget_append,
    dget_coreMerged_other c h1 h2 h3 h4 h5 h6 h7,
    dget_optEntry_ne c h8, dget_optEntry_ne c h9, dget_optEntry_ne c h10]
  simp

/-! ### Characterization of successful validation -/

theorem validate_config_ok_iff (c out : RawConfig) :
    validate_config c = .ok out ↔ reqChecksPass c ∧ out = mergedOf c := by
  unfold validate_config reqChecksPass
  constructor
  · intro h
    split at h
    · exact absurd h (by simp)
    rename_i h1
    split at h
    · exact absurd h (by simp)
    rename_i h2
    split at h
    · exact absurd h (by simp)
    rename_i h3
    split at h
    · exact absurd h (by simp)
    rename_i h4
    split at h
    · exact absurd h (by simp)
    · exact absurd h (by simp)
    rename_i h5
    split at h
    · exact absurd h (by simp)
    · exact absurd h (by simp)
    rename_i h6
    split at h
    · exact absurd h (by simp)
    · exact absurd h (by simp)
    rename_i h7
    split at h
    · exact absurd h (by simp)
    · exact absurd h (by simp)
    rename_i h8
    refine ⟨⟨Bool.not_eq_true _ ▸ h1, Bool.not_eq_true _ ▸ h2, ?_, ?_, h5, h6, h7, h8⟩, ?_⟩
    · simpa using h3
    · simpa using h4
    · simpa using h.symm
  · rintro ⟨⟨h1, h2, h3, h4, h5, h6, h7, h8⟩, rfl⟩
    simp [h1, h2, h3, h4, h5, h6, h7, h8]

/-- C2: `validate_config` checks its constraints in the fixed order
api_key presence, endpoint presence, api_key format, endpoint URL validity,
then batch_size, flush_interval, max_queue_size, max_retries bounds, and
fails with the `InvalidConfig` error of the first violated check only; in
particular a config missing both required fields fails with
"api_key is required", and a config with api_key present but endpoint absent
or empty fails with "endpoint is required" before api_key format is
checked. -/
theorem validation_first_failure_order (c : RawConfig) :
    ((dget c "api_key" = none ∨ pyTruthy (getV c "api_key") = false) →
      validate_config c = .error (.logwell "api_key is required" .INVALID_CONFIG)) ∧
    (∀ ak, dget c "api_key" = some ak → pyTruthy ak = true →
      (dget c "endpoint" = none ∨ pyTruthy (getV c "endpoint") = false) →
      validate_config c = .error (.logwell "endpoint is required" .INVALID_CONFIG)) ∧
    (∀ ak ep, dget c "api_key" = some ak → pyTruthy ak = true →
      dget c "endpoint" = some ep → pyTruthy ep = true →
      validate_api_key_format ak = false →
      validate_config c = .error (.logwell
        "Invalid API key format. Expected: lw_[32 characters]" .INVALID_CONFIG)) ∧
    (∀ ak ep, dget c "api_key" = some ak → pyTruthy ak = true →
      dget c "endpoint" = some ep → pyTruthy ep = true →
      validate_api_key_format ak = true → _is_valid_url ep = false →
      validate_config c = .error (.logwell "Invalid endpoint URL" .INVALID_CONFIG)) ∧
    (∀ ak ep, dget c "api_key" = some ak → pyTruthy ak = true →
      dget c "endpoint" = some ep → pyTruthy ep = true →
      validate_api_key_format ak = true → _is_valid_url ep = true →
      ∀ v, dget c "batch_size" = some v → pyLeZero v = .ok true →
      validate_config c = .error (.logwell "batch_size must be positive"
        .INVALID_CONFIG)) ∧
    (∀ ak ep, dget c "api_key" = some ak → pyTruthy ak = true →
      dget c "endpoint" = some ep → pyTruthy ep = true →
      validate_api_key_format ak = true → _is_valid_url ep = true →
      presentAndLeZero c "batch_size" = .ok false →
      ∀ v, dget c "flush_interval" = some v → pyLeZero v = .ok true →
      validate_config c = .error (.logwell "flush_interval must be positive"
        .INVALID_CONFIG)) ∧
    (∀ ak ep, dget c "api_key" = some ak → pyTruthy ak = true →
      dget c "endpoint" = some ep → pyTruthy ep = true →
      validate_api_key_format ak = true → _is_valid_url ep = true →
      presentAndLeZero c "batch_size" = .ok false →
      presentAndLeZero c "flush_interval" = .ok false →
      ∀ v, dget c "max_queue_size" = some v → pyLeZero v = .ok true →
      validate_config c = .error (.logwell "max_queue_size must be positive"
        .INVALID_CONFIG)) ∧
    (∀ ak ep, dget c "api_key" = some ak → pyTruthy ak = true →
      dget c "endpoint" = some ep → pyTruthy ep = true →
      validate_api_key_format ak = true → _is_valid_url ep = true →
      presentAndLeZero c "batch_size" = .ok false →
      presentAndLeZero c "flush_interval" = .ok false →
      presentAndLeZero c "max_queue_size" = .ok false →
      ∀ v, dget c "max_retries" = some v → pyLtZero v = .ok true →
      validate_config c = .error (.logwell "max_retries must be non-negative"
        .INVALID_CONFIG)) := by
  refine ⟨?_, ?_, ?_, ?_, ?_, ?_, ?_, ?_⟩
  · rintro (h | h) <;> simp [validate_config, h]
  · rintro ak ha hat (h | h)
    · simp [validate_config, getV, ha, hat, h]
    · simp only [getV] at h
      simp [validate_config, getV, ha, hat, h]
  · intro ak ep ha hat he het hf
    simp [validate_config, getV, ha, hat, he, het, hf]
  · intro ak ep ha hat he het hf hu
    simp [validate_config, getV, ha, hat, he, het, hf, hu]
  · intro ak ep ha hat he het hf hu v hv hle
    have hb : presentAndLeZero c "batch_size" = .ok true := by
      simp [presentAndLeZero, hv, hle]
    simp [validate_config, getV, ha, hat, he, het, hf, hu, hb]
  · intro ak ep ha hat he het hf hu hb v hv hle
    have hfi : presentAndLeZero c "flush_interval" = .ok true := by
      simp [presentAndLeZero, hv, hle]
    simp [validate_config, getV, ha, hat, he, het, hf, hu, hb, hfi]
  · intro ak ep ha hat he het hf hu hb hfi v hv hle
    have hq : presentAndLeZero c "max_queue_size" = .ok true := by
      simp [presentAndLeZero, hv, hle]
    simp [validate_config, getV, ha, hat, he, het, hf, hu, hb, hfi, hq]
  · intro ak ep ha hat he het hf hu hb hfi hq v hv hlt
    have hr : presentAndLtZero c "max_retries" = .ok true := by
      simp [presentAndLtZero, hv, hlt]
    simp [validate_config, getV, ha, hat, he, het, hf, hu, hb, hfi, hq, hr]

/-- Witness for C2: the empty config (both required fields missing) fails
with "api_key is required". -/
theorem validation_first_failure_order_witness :
    validate_config [] =
      .error (.logwell "api_key is required" .INVALID_CONFIG) :=
  (validation_first_failure_order []).1 (Or.inl rfl)

/-! ### The API-key regex body versus the spec shape -/

theorem apiKeyBody_iff (l : List Char) :
    apiKeyBody l = true ↔
      l.take 3 = ['l', 'w', '_'] ∧ l.length = 35 ∧
        (l.drop 3).all isApiKeyClassChar = true := by
  match l with
  | [] => simp [apiKeyBody]
  | [c1] => simp [apiKeyBody]
  | [c1, c2] => simp [apiKeyBody]
  | c1 :: c2 :: c3 :: rest =>
    simp only [apiKeyBody, Bool.and_eq_true, decide_eq_true_eq, List.take_succ_cons,
      List.take_zero, List.cons.injEq, and_true, List.length_cons, List.drop_succ_cons,
      List.drop_zero]
    constructor
    · rintro ⟨⟨⟨⟨rfl, rfl⟩, rfl⟩, hlen⟩, hall⟩
      exact ⟨⟨rfl, rfl, rfl⟩, by omega, hall⟩
    · rintro ⟨⟨rfl, rfl, rfl⟩, hlen, hall⟩
      exact ⟨⟨⟨⟨rfl, rfl⟩, rfl⟩, by omega⟩, hall⟩

theorem specApiKeyShape_iff_body (s : String) :
    specApiKeyShape s = true ↔ apiKeyBody s.data = true := by
  rw [apiKeyBody_iff]
  simp [specApiKeyShape, and_assoc]

theorem apiKeyBody_ne_nil {l : List Char} (h : apiKeyBody l = true) : l ≠ [] := by
  intro hl
  subst hl
  simp [apiKeyBody] at h

theorem validate_api_key_format_of_body {s : String} (h : apiKeyBody s.data = true) :
    validate_api_key_format (.str s) = true := by
  have hne : s ≠ "" := by
    intro hs
    exact apiKeyBody_ne_nil h (by simp [hs])
  have hemp : s.isEmpty = false := by
    rcases Bool.eq_false_or_eq_true s.isEmpty with he | he
    · exact absurd ((String.isEmpty_iff s).mp he) hne
    · exact he
  simp [validate_api_key_format, pyTruthy, hemp, apiKeyMatch, h]

theorem _is_valid_url_str_ne_empty {s : String} (h : _is_valid_url (.str s) = true) :
    s ≠ "" := by
  intro hs
  subst hs
  exact absurd h (by decide)

theorem pyTruthy_of_valid_url {s : String} (h : _is_valid_url (.str s) = true) :
    pyTruthy (.str s) = true := by
  have hne := _is_valid_url_str_ne_empty h
  have hemp : s.isEmpty = false := by
    rcases Bool.eq_false_or_eq_true s.isEmpty with he | he
    · exact absurd ((String.isEmpty_iff s).mp he) hne
    · exact he
  simp [pyTruthy, hemp]

/-- C1: for every config whose api_key has the required shape, whose endpoint
is accepted by the URL predicate, and which omits all five optional core
fields, `validate_config` succeeds and the output carries the documented
defaults batch_size=50, flush_interval=5.0, max_queue_size=1000,
max_retries=3, capture_source_location=false. -/
theorem defaults_applied_on_minimal_valid_config (c : RawConfig) (a e : String)
    (ha : dget c "api_key" = some (.str a)) (hshape : specApiKeyShape a = true)
    (he : dget c "endpoint" = some (.str e)) (hurl : _is_valid_url (.str e) = true)
    (hb : dget c "batch_size" = none) (hf : dget c "flush_interval" = none)
    (hq : dget c "max_queue_size" = none) (hm : dget c "max_retries" = none)
    (hc : dget c "capture_source_location" = none) :
    ∃ out, validate_config c = .ok out ∧
      dget out "batch_size" = some (.int 50) ∧
      dget out "flush_interval" = some (.float 5) ∧
      dget out "max_queue_size" = some (.int 1000) ∧
      dget out "max_retries" = some (.int 3) ∧
      dget out "capture_source_location" = some (.bool false) := by
  have hbody : apiKeyBody a.data = true := (specApiKeyShape_iff_body a).mp hshape
  have hfmt : validate_api_key_format (.str a) = true :=
    validate_api_key_format_of_body hbody
  have hat : pyTruthy (.str a) = true := by
    rcases Bool.eq_false_or_eq_true (pyTruthy (.str a)) with ht | ht
    · exact ht
    · exact absurd hfmt (by simp [validate_api_key_format, ht])
  have het : pyTruthy (.str e) = true := pyTruthy_of_valid_url hurl
  refine ⟨mergedOf c, ?_, ?_, ?_, ?_, ?_, ?_⟩
  · rw [validate_config_ok_iff]
    refine ⟨⟨?_, ?_, ?_, ?_, ?_, ?_, ?_, ?_⟩, rfl⟩
    · simp [ha, getV, hat]
    · simp [he, getV, het]
    · simp [ha, getV, hfmt]
    · simp [he, getV, hurl]
    · simp [presentAndLeZero, hb]
    · simp [presentAndLeZero, hf]
    · simp [presentAndLeZero, hq]
    · simp [presentAndLtZero, hm]
  · rw [dget_mergedOf_batch_size]
    simp [configGet, hb]
  · rw [dget_mergedOf_flush_interval]
    simp [configGet, hf]
  · rw [dget_mergedOf_max_queue_size]
    simp [configGet, hq]
  · rw [dget_mergedOf_max_retries]
    simp [configGet, hm]
  · rw [dget_mergedOf_capture]
    simp [configGet, hc]

/-- Witness for C1: the spec's Example 1 input. -/
theorem defaults_applied_on_minimal_valid_config_witness :
    ∃ out, validate_config
        [("api_key", .str goodKey), ("endpoint", .str "https://ingest.example.com")] =
        .ok out ∧
      dget out "batch_size" = some (.int 50) ∧
      dget out "flush_interval" = some (.float 5) ∧
      dget out "max_queue_size" = some (.int 1000) ∧
      dget out "max_retries" = some (.int 3) ∧
      dget out "capture_source_location" = some (.bool false) :=
  defaults_applied_on_minimal_valid_config
    [("api_key", .str goodKey), ("endpoint", .str "https://ingest.example.com")]
    goodKey "https://ingest.example.com" rfl (by decide) rfl (by decide)
    rfl rfl rfl rfl rfl

/-! ### Idempotence infrastructure -/

theorem optEntry_congr {c d : RawConfig} {k : String} (h : dget c k = dget d k) :
    optEntry c k = optEntry d k := by
  unfold optEntry getV
  rw [h]

theorem coreMerged_mergedOf (c : RawConfig) :
    coreMerged (mergedOf c) = coreMerged c := by
  simp [coreMerged, getV, configGet, DEFAULT_CONFIG, dget, dget_mergedOf_api_key,
    dget_mergedOf_endpoint, dget_mergedOf_batch_size, dget_mergedOf_flush_interval,
    dget_mergedOf_max_queue_size, dget_mergedOf_max_retries, dget_mergedOf_capture]

theorem mergedOf_mergedOf (c : RawConfig) : mergedOf (mergedOf c) = mergedOf c := by
  show coreMerged (mergedOf c) ++ optEntry (mergedOf c) "service"
      ++ optEntry (mergedOf c) "on_error" ++ optEntry (mergedOf c) "on_flush"
    = mergedOf c
  rw [coreMerged_mergedOf, optEntry_congr (dget_mergedOf_service c),
    optEntry_congr (dget_mergedOf_on_error c), optEntry_congr (dget_mergedOf_on_flush c)]
  rfl

theorem pyLeZero_merged_field {c : RawConfig} {k : String} {d : PyVal}
    (h : presentAndLeZero c k = .ok false) (hd : pyLeZero d = .ok false) :
    pyLeZero (configGet c k d) = .ok false := by
  unfold presentAndLeZero at h
  unfold configGet
  cases hg : dget c k with
  | none => simpa using hd
  | some v =>
    rw [hg] at h
    simpa using h

theorem pyLtZero_merged_field {c : RawConfig} {k : String} {d : PyVal}
    (h : presentAndLtZero c k = .ok false) (hd : pyLtZero d = .ok false) :
    pyLtZero (configGet c k d) = .ok false := by
  unfold presentAndLtZero at h
  unfold configGet
  cases hg : dget c k with
  | none => simpa using hd
  | some v =>
    rw [hg] at h
    simpa using h

theorem reqChecksPass_mergedOf {c : RawConfig} (h : reqChecksPass c) :
    reqChecksPass (mergedOf c) := by
  obtain ⟨h1, h2, h3, h4, h5, h6, h7, h8⟩ := h
  have hga : getV (mergedOf c) "api_key" = getV c "api_key" := by
    simp [getV, dget_mergedOf_api_key]
  have hge : getV (mergedOf c) "endpoint" = getV c "endpoint" := by
    simp [getV, dget_mergedOf_endpoint]
  have hta : pyTruthy (getV c "api_key") = true := by
    rcases Bool.or_eq_false_iff.mp h1 with ⟨-, hn⟩
    simpa using hn
  have hte : pyTruthy (getV c "endpoint") = true := by
    rcases Bool.or_eq_false_iff.mp h2 with ⟨-, hn⟩
    simpa using hn
  refine ⟨?_, ?_, ?_, ?_, ?_, ?_, ?_, ?_⟩
  · simp [dget_mergedOf_api_key, hga, hta]
  · simp [dget_mergedOf_endpoint, hge, hte]
  · rw [hga]
    exact h3
  · rw [hge]
    exact h4
  · simp only [presentAndLeZero, dget_mergedOf_batch_size]
    exact pyLeZero_merged_field h5 rfl
  · simp only [presentAndLeZero, dget_mergedOf_flush_interval]
    exact pyLeZero_merged_field h6 rfl
  · simp only [presentAndLeZero, dget_mergedOf_max_queue_size]
    exact pyLeZero_merged_field h7 rfl
  · simp only [presentAndLtZero, dget_mergedOf_max_retries]
    exact pyLtZero_merged_field h8 rfl

/-- C8: `validate_config` is idempotent — feeding a successful output back in
succeeds and returns the identical record. -/
theorem validate_config_idempotent (c out : RawConfig)
    (h : validate_config c = .ok out) : validate_config out = .ok out := by
  rw [validate_config_ok_iff] at h ⊢
  obtain ⟨hp, rfl⟩ := h
  exact ⟨reqChecksPass_mergedOf hp, (mergedOf_mergedOf c).symm⟩

/-- Witness for C8: revalidating the normalized form of the spec's Example 1
input returns it unchanged. -/
theorem validate_config_idempotent_witness :
    validate_config
      [("api_key", .str goodKey), ("endpoint", .str "https://ingest.example.com"),
       ("batch_size", .int 50), ("flush_interval", .float 5),
       ("max_queue_size", .int 1000), ("max_retries", .int 3),
       ("capture_source_location", .bool false)] =
    .ok
      [("api_key", .str goodKey), ("endpoint", .str "https://ingest.example.com"),
       ("batch_size", .int 50), ("flush_interval", .float 5),
       ("max_queue_size", .int 1000), ("max_retries", .int 3),
       ("capture_source_location", .bool false)] :=
  validate_config_idempotent
    [("api_key", .str goodKey), ("endpoint", .str "https://ingest.example.com")]
    _ (by rfl)

/-- C9: `service`, `on_error` and `on_flush` appear in a successful output
exactly when they appear in the input, with the value copied verbatim. -/
theorem optional_fields_passthrough (c out : RawConfig)
    (h : validate_config c = .ok out) :
    dget out "service" = dget c "service" ∧
    dget out "on_error" = dget c "on_error" ∧
    dget out "on_flush" = dget c "on_flush" := by
  rw [validate_config_ok_iff] at h
  obtain ⟨-, rfl⟩ := h
  exact ⟨dget_mergedOf_service c, dget_mergedOf_on_error c, dget_mergedOf_on_flush c⟩

/-- Witness for C9: the spec's Example 5 input with `service: "checkout"`. -/
theorem optional_fields_passthrough_witness :
    dget (mergedOf [("api_key", .str goodKey),
        ("endpoint", .str "https://ingest.example.com"),
        ("service", .str "checkout")]) "service" =
      dget [("api_key", .str goodKey), ("endpoint", .str "https://ingest.example.com"),
        ("service", .str "checkout")] "service" ∧
    dget (mergedOf [("api_key", .str goodKey),
        ("endpoint", .str "https://ingest.example.com"),
        ("service", .str "checkout")]) "on_error" =
      dget [("api_key", .str goodKey), ("endpoint", .str "https://ingest.example.com"),
        ("service", .str "checkout")] "on_error" ∧
    dget (mergedOf [("api_key", .str goodKey),
        ("endpoint", .str "https://ingest.example.com"),
        ("service", .str "checkout")]) "on_flush" =
      dget [("api_key", .str goodKey), ("endpoint", .str "https://ingest.example.com"),
        ("service", .str "checkout")] "on_flush" :=
  optional_fields_passthrough
    [("api_key", .str goodKey), ("endpoint", .str "https://ingest.example.com"),
     ("service", .str "checkout")] _ (by rfl)

/-- C10: a successful output carries no key outside the seven core fields and
the three conditional pass-through fields; unrecognized input keys are
dropped. -/
theorem no_unrecognized_output_keys (c out : RawConfig)
    (h : validate_config c = .ok out)
    (k : String) (hk : ¬ k ∈ recognizedKeys) : dget out k = none := by
  rw [validate_config_ok_iff] at h
  obtain ⟨-, rfl⟩ := h
  exact dget_mergedOf_other c hk

/-- Witness for C10: an input with the unrecognized key `debug` validates, and
the output drops that key. -/
theorem no_unrecognized_output_keys_witness :
    dget (mergedOf [("api_key", .str goodKey),
      ("endpoint", .str "https://ingest.example.com"),
      ("debug", .bool true)]) "debug" = none :=
  no_unrecognized_output_keys
    [("api_key", .str goodKey), ("endpoint", .str "https://ingest.example.com"),
     ("debug", .bool true)] _ (by rfl) "debug" (by decide)

/-! ### Invalid endpoints -/

theorem _is_valid_url_false_of_parse (s : String)
    (h : (∃ msg, urlsplitE s = .error msg) ∨
      ∃ r, urlsplitE s = .ok r ∧ (r.scheme = "" ∨ r.netloc = "")) :
    _is_valid_url (.str s) = false := by
  have hemp : ("" : String).isEmpty = true := rfl
  rcases h with ⟨msg, hm⟩ | ⟨r, hr, hs | hn⟩
  · simp [_is_valid_url, hm]
  · simp [_is_valid_url, hr, hs, hemp]
  · simp [_is_valid_url, hr, hn, hemp]

/-- C6: with a valid api_key, an endpoint string whose parse raises or
yields an empty scheme or host fails with exactly
`InvalidConfig "Invalid endpoint URL"`; both the unparseable case and the
structurally invalid case take this same path (`_is_valid_url` is a total
function, so no parse exception propagates). -/
theorem invalid_endpoint_single_failure (c : RawConfig) (ak : PyVal) (s : String)
    (ha : dget c "api_key" = some ak) (hat : pyTruthy ak = true)
    (hf : validate_api_key_format ak = true)
    (he : dget c "endpoint" = some (.str s)) (het : pyTruthy (.str s) = true)
    (hbad : (∃ msg, urlsplitE s = .error msg) ∨
      ∃ r, urlsplitE s = .ok r ∧ (r.scheme = "" ∨ r.netloc = "")) :
    validate_config c = .error (.logwell "Invalid endpoint URL" .INVALID_CONFIG) := by
  have hu := _is_valid_url_false_of_parse s hbad
  simp [validate_config, getV, ha, hat, he, het, hf, hu]

/-- Witness for C6: an endpoint whose parse raises `ValueError`
("Invalid IPv6 URL") is reported as an invalid endpoint URL. -/
theorem invalid_endpoint_single_failure_witness :
    validate_config [("api_key", .str goodKey), ("endpoint", .str "https://[bad")] =
      .error (.logwell "Invalid endpoint URL" .INVALID_CONFIG) :=
  invalid_endpoint_single_failure
    [("api_key", .str goodKey), ("endpoint", .str "https://[bad")]
    (.str goodKey) "https://[bad" rfl (by decide) (by decide) rfl (by decide)
    (Or.inl ⟨"Invalid IPv6 URL", by rfl⟩)

/-! ### Bound checks on the numeric options -/

/-- C7: with valid required fields, each supplied non-positive
batch_size/flush_interval/max_queue_size is rejected with its
"must be positive" message, a negative max_retries is rejected with
"max_retries must be non-negative", and the boundary values
batch_size=1, max_queue_size=1, max_retries=0 together with any positive
flush_interval are accepted. -/
theorem numeric_bounds_checked (c : RawConfig) (ak ep : PyVal)
    (ha : dget c "api_key" = some ak) (hat : pyTruthy ak = true)
    (hf : validate_api_key_format ak = true)
    (he : dget c "endpoint" = some ep) (het : pyTruthy ep = true)
    (hu : _is_valid_url ep = true) :
    (∀ v, dget c "batch_size" = some v → pyLeZero v = .ok true →
      validate_config c = .error (.logwell "batch_size must be positive"
        .INVALID_CONFIG)) ∧
    (presentAndLeZero c "batch_size" = .ok false →
      ∀ v, dget c "flush_interval" = some v → pyLeZero v = .ok true →
      validate_config c = .error (.logwell "flush_interval must be positive"
        .INVALID_CONFIG)) ∧
    (presentAndLeZero c "batch_size" = .ok false →
      presentAndLeZero c "flush_interval" = .ok false →
      ∀ v, dget c "max_queue_size" = some v → pyLeZero v = .ok true →
      validate_config c = .error (.logwell "max_queue_size must be positive"
        .INVALID_CONFIG)) ∧
    (presentAndLeZero c "batch_size" = .ok false →
      presentAndLeZero c "flush_interval" = .ok false →
      presentAndLeZero c "max_queue_size" = .ok false →
      ∀ v, dget c "max_retries" = some v → pyLtZero v = .ok true →
      validate_config c = .error (.logwell "max_retries must be non-negative"
        .INVALID_CONFIG)) ∧
    (∀ q : ℚ, 0 < q →
      ∃ out, validate_config
        [("api_key", ak), ("endpoint", ep), ("batch_size", .int 1),
         ("flush_interval", .float q), ("max_queue_size", .int 1),
         ("max_retries", .int 0)] = .ok out) := by
  refine ⟨?_, ?_, ?_, ?_, ?_⟩
  · intro v hv hle
    have hb : presentAndLeZero c "batch_size" = .ok true := by
      simp [presentAndLeZero, hv, hle]
    simp [validate_config, getV, ha, hat, he, het, hf, hu, hb]
  · intro hb v hv hle
    have hfi : presentAndLeZero c "flush_interval" = .ok true := by
      simp [presentAndLeZero, hv, hle]
    simp [validate_config, getV, ha, hat, he, het, hf, hu, hb, hfi]
  · intro hb hfi v hv hle
    have hq : presentAndLeZero c "max_queue_size" = .ok true := by
      simp [presentAndLeZero, hv, hle]
    simp [validate_config, getV, ha, hat, he, het, hf, hu, hb, hfi, hq]
  · intro hb hfi hq v hv hlt
    have hr : presentAndLtZero c "max_retries" = .ok true := by
      simp [presentAndLtZero, hv, hlt]
    simp [validate_config, getV, ha, hat, he, het, hf, hu, hb, hfi, hq, hr]
  · intro q hq
    have hqle : decide (q ≤ 0) = false := decide_eq_false (not_le.mpr hq)
    refine ⟨mergedOf [("api_key", ak), ("endpoint", ep), ("batch_size", .int 1),
      ("flush_interval", .float q), ("max_queue_size", .int 1),
      ("max_retries", .int 0)], ?_⟩
    rw [validate_config_ok_iff]
    refine ⟨⟨?_, ?_, ?_, ?_, ?_, ?_, ?_, ?_⟩, rfl⟩
    · simp [dget, getV, hat]
    · simp [dget, getV, het]
    · simpa [dget, getV] using hf
    · simpa [dget, getV] using hu
    · simp [presentAndLeZero, dget, pyLeZero]
    · simp [presentAndLeZero, dget, pyLeZero, hqle]
    · simp [presentAndLeZero, dget, pyLeZero]
    · simp [presentAndLtZero, dget, pyLtZero]

/-- Witness for C7: all four boundary values together are accepted. -/
theorem numeric_bounds_checked_witness :
    ∃ out, validate_config
      [("api_key", .str goodKey), ("endpoint", .str "https://ingest.example.com"),
       ("batch_size", .int 1), ("flush_interval", .float 1),
       ("max_queue_size", .int 1), ("max_retries", .int 0)] = .ok out :=
  (numeric_bounds_checked
    [("api_key", .str goodKey), ("endpoint", .str "https://ingest.example.com")]
    (.str goodKey) (.str "https://ingest.example.com")
    rfl (by decide) (by decide) rfl (by decide) (by decide)).2.2.2.2 1 one_pos

/-! ### Which errors can escape -/

theorem pyLeZero_ok_of_comparable {v : PyVal} (h : isComparableVal v = true) :
    ∃ b, pyLeZero v = .ok b := by
  cases v with
  | int n => exact ⟨_, rfl⟩
  | float q => exact ⟨_, rfl⟩
  | bool b => exact ⟨_, rfl⟩
  | str s => exact absurd h (by simp [isComparableVal])
  | pynone => exact absurd h (by simp [isComparableVal])
  | callback i => exact absurd h (by simp [isComparableVal])

theorem pyLtZero_ok_of_comparable {v : PyVal} (h : isComparableVal v = true) :
    ∃ b, pyLtZero v = .ok b := by
  cases v with
  | int n => exact ⟨_, rfl⟩
  | float q => exact ⟨_, rfl⟩
  | bool b => exact ⟨_, rfl⟩
  | str s => exact absurd h (by simp [isComparableVal])
  | pynone => exact absurd h (by simp [isComparableVal])
  | callback i => exact absurd h (by simp [isComparableVal])

theorem presentAndLeZero_ok {c : RawConfig} {k : String}
    (h : ∀ v, dget c k = some v → isComparableVal v = true) :
    ∃ b, presentAndLeZero c k = .ok b := by
  unfold presentAndLeZero
  cases hd : dget c k with
  | none => exact ⟨false, rfl⟩
  | some v => exact pyLeZero_ok_of_comparable (h v hd)

theorem presentAndLtZero_ok {c : RawConfig} {k : String}
    (h : ∀ v, dget c k = some v → isComparableVal v = true) :
    ∃ b, presentAndLtZero c k = .ok b := by
  unfold presentAndLtZero
  cases hd : dget c k with
  | none => exact ⟨false, rfl⟩
  | some v => exact pyLtZero_ok_of_comparable (h v hd)

/-- C3 counterexample: a non-numeric `batch_size` makes `validate_config`
raise a `TypeError`, which is not an `InvalidConfig` failure — so
`InvalidConfig` is not the only failure the function can produce. -/
theorem invalid_config_only_counterexample :
    validate_config
      [("api_key", .str goodKey), ("endpoint", .str "https://x.com"),
       ("batch_size", .str "ten")] =
      .error (.typeError
        "unsupported comparison between instances of str and int") ∧
    isInvalidConfigError
      (.typeError "unsupported comparison between instances of str and int") =
      false :=
  ⟨by rfl, rfl⟩

/-- C3 amended: when every supplied value of the four numeric option keys is
order-comparable with an integer (an int, float or bool), the only failure
`validate_config` produces is an `InvalidConfig` error carrying one of the
eight enumerated reason strings. -/
theorem invalid_config_only_on_comparable (c : RawConfig)
    (h : ∀ k, k ∈ numericKeys → ∀ v, dget c k = some v →
      isComparableVal v = true) :
    (∃ out, validate_config c = .ok out) ∨
    (∃ msg, validate_config c = .error (.logwell msg .INVALID_CONFIG) ∧
      msg ∈ enumeratedMessages) := by
  by_cases h1 : ((dget c "api_key").isNone || !(pyTruthy (getV c "api_key"))) = true
  · exact Or.inr ⟨"api_key is required", by simp [validate_config, h1], by decide⟩
  simp only [Bool.not_eq_true] at h1
  by_cases h2 : ((dget c "endpoint").isNone || !(pyTruthy (getV c "endpoint"))) = true
  · exact Or.inr ⟨"endpoint is required", by simp [validate_config, h1, h2], by decide⟩
  simp only [Bool.not_eq_true] at h2
  by_cases h3 : validate_api_key_format (getV c "api_key") = true
  case neg =>
    simp only [Bool.not_eq_true] at h3
    exact Or.inr ⟨"Invalid API key format. Expected: lw_[32 characters]",
      by simp [validate_config, h1, h2, h3], by decide⟩
  by_cases h4 : _is_valid_url (getV c "endpoint") = true
  case neg =>
    simp only [Bool.not_eq_true] at h4
    exact Or.inr ⟨"Invalid endpoint URL", by simp [validate_config, h1, h2, h3, h4],
      by decide⟩
  obtain ⟨b1, hb1⟩ := presentAndLeZero_ok (h "batch_size" (by decide))
  cases b1 with
  | true =>
    exact Or.inr ⟨"batch_size must be positive",
      by simp [validate_config, h1, h2, h3, h4, hb1], by decide⟩
  | false =>
  obtain ⟨b2, hb2⟩ := presentAndLeZero_ok (h "flush_interval" (by decide))
  cases b2 with
  | true =>
    exact Or.inr ⟨"flush_interval must be positive",
      by simp [validate_config, h1, h2, h3, h4, hb1, hb2], by decide⟩
  | false =>
  obtain ⟨b3, hb3⟩ := presentAndLeZero_ok (h "max_queue_size" (by decide))
  cases b3 with
  | true =>
    exact Or.inr ⟨"max_queue_size must be positive",
      by simp [validate_config, h1, h2, h3, h4, hb1, hb2, hb3], by decide⟩
  | false =>
  obtain ⟨b4, hb4⟩ := presentAndLtZero_ok (h "max_retries" (by decide))
  cases b4 with
  | true =>
    exact Or.inr ⟨"max_retries must be non-negative",
      by simp [validate_config, h1, h2, h3, h4, hb1, hb2, hb3, hb4], by decide⟩
  | false =>
    exact Or.inl ⟨mergedOf c,
      by simp [validate_config, h1, h2, h3, h4, hb1, hb2, hb3, hb4]⟩

/-- Witness for C3 amended: the empty config (vacuously comparable) fails
with an enumerated `InvalidConfig` reason. -/
theorem invalid_config_only_on_comparable_witness :
    (∃ out, validate_config [] = .ok out) ∨
    (∃ msg, validate_config [] = .error (.logwell msg .INVALID_CONFIG) ∧
      msg ∈ enumeratedMessages) :=
  invalid_config_only_on_comparable []
    (by intro k hk v hv; exact absurd hv (by simp [dget]))

/-! ### Typing of the successful output -/

theorem validate_api_key_format_is_str {v : PyVal}
    (h : validate_api_key_format v = true) : ∃ s, v = .str s := by
  cases v with
  | str s => exact ⟨s, rfl⟩
  | int n => exact absurd h (by simp [validate_api_key_format])
  | float q => exact absurd h (by simp [validate_api_key_format])
  | bool b => exact absurd h (by simp [validate_api_key_format])
  | pynone => exact absurd h (by simp [validate_api_key_format])
  | callback i => exact absurd h (by simp [validate_api_key_format])

theorem _is_valid_url_is_str {v : PyVal}
    (h : _is_valid_url v = true) : ∃ s, v = .str s := by
  cases v with
  | str s => exact ⟨s, rfl⟩
  | int n => exact absurd h (by simp [_is_valid_url])
  | float q => exact absurd h (by simp [_is_valid_url])
  | bool b => exact absurd h (by simp [_is_valid_url])
  | pynone => exact absurd h (by simp [_is_valid_url])
  | callback i => exact absurd h (by simp [_is_valid_url])

/-- C4 counterexample: an input supplying a non-boolean
`capture_source_location` validates successfully and the value is copied to
the output untyped, so the output does not always carry a boolean there. -/
theorem typed_output_counterexample :
    validate_config
      [("api_key", .str goodKey), ("endpoint", .str "https://x.com"),
       ("capture_source_location", .int 7)] =
      .ok [("api_key", .str goodKey), ("endpoint", .str "https://x.com"),
       ("batch_size", .int 50), ("flush_interval", .float 5),
       ("max_queue_size", .int 1000), ("max_retries", .int 3),
       ("capture_source_location", .int 7)] ∧
    isBoolVal (.int 7) = false :=
  ⟨by rfl, rfl⟩

/-- C4 amended: on success the api_key is a string accepted by the key
predicate and the endpoint a string accepted by the URL predicate; and
provided each supplied optional core field has its declared type (the code
itself never checks these types), the numeric fields of the output are
positive integers / a positive number / a non-negative integer and
capture_source_location is a boolean. -/
theorem typed_output_on_typed_input (c out : RawConfig)
    (h : validate_config c = .ok out)
    (hbs : ∀ v, dget c "batch_size" = some v → isIntVal v = true)
    (hfi : ∀ v, dget c "flush_interval" = some v → isNumVal v = true)
    (hqs : ∀ v, dget c "max_queue_size" = some v → isIntVal v = true)
    (hmr : ∀ v, dget c "max_retries" = some v → isIntVal v = true)
    (hcs : ∀ v, dget c "capture_source_location" = some v → isBoolVal v = true) :
    (∃ s, dget out "api_key" = some (.str s) ∧
      validate_api_key_format (.str s) = true) ∧
    (∃ s, dget out "endpoint" = some (.str s) ∧ _is_valid_url (.str s) = true) ∧
    (∃ n : Int, dget out "batch_size" = some (.int n) ∧ 0 < n) ∧
    (∃ v, dget out "flush_interval" = some v ∧ isNumVal v = true ∧
      pyNumPos v = true) ∧
    (∃ n : Int, dget out "max_queue_size" = some (.int n) ∧ 0 < n) ∧
    (∃ n : Int, dget out "max_retries" = some (.int n) ∧ 0 ≤ n) ∧
    (∃ b : Bool, dget out "capture_source_location" = some (.bool b)) := by
  rw [validate_config_ok_iff] at h
  obtain ⟨⟨h1, h2, h3, h4, h5, h6, h7, h8⟩, rfl⟩ := h
  refine ⟨?_, ?_, ?_, ?_, ?_, ?_, ?_⟩
  · obtain ⟨s, hs⟩ := validate_api_key_format_is_str h3
    refine ⟨s, ?_, hs ▸ h3⟩
    rw [dget_mergedOf_api_key, hs]
  · obtain ⟨s, hs⟩ := _is_valid_url_is_str h4
    refine ⟨s, ?_, hs ▸ h4⟩
    rw [dget_mergedOf_endpoint, hs]
  · rw [dget_mergedOf_batch_size]
    cases hd : dget c "batch_size" with
    | none => exact ⟨50, by simp [configGet, hd], by norm_num⟩
    | some v =>
      have hint := hbs v hd
      cases v with
      | int n =>
        refine ⟨n, by simp [configGet, hd], ?_⟩
        rw [presentAndLeZero, hd] at h5
        simp only [pyLeZero, Except.ok.injEq] at h5
        exact lt_of_not_le (of_decide_eq_false h5)
      | str s => exact absurd hint (by simp [isIntVal])
      | float q => exact absurd hint (by simp [isIntVal])
      | bool b => exact absurd hint (by simp [isIntVal])
      | pynone => exact absurd hint (by simp [isIntVal])
      | callback i => exact absurd hint (by simp [isIntVal])
  · rw [dget_mergedOf_flush_interval]
    cases hd : dget c "flush_interval" with
    | none => exact ⟨.float 5, by simp [configGet, hd], rfl, by norm_num [pyNumPos]⟩
    | some v =>
      have hnum := hfi v hd
      rw [presentAndLeZero, hd] at h6
      cases v with
      | int n =>
        refine ⟨.int n, by simp [configGet, hd], rfl, ?_⟩
        simp only [pyLeZero, Except.ok.injEq] at h6
        simpa [pyNumPos] using lt_of_not_le (of_decide_eq_false h6)
      | float q =>
        refine ⟨.float q, by simp [configGet, hd], rfl, ?_⟩
        simp only [pyLeZero, Except.ok.injEq] at h6
        simpa [pyNumPos] using lt_of_not_le (of_decide_eq_false h6)
      | str s => exact absurd hnum (by simp [isNumVal])
      | bool b => exact absurd hnum (by simp [isNumVal])
      | pynone => exact absurd hnum (by simp [isNumVal])
      | callback i => exact absurd hnum (by simp [isNumVal])
  · rw [dget_mergedOf_max_queue_size]
    cases hd : dget c "max_queue_size" with
    | none => exact ⟨1000, by simp [configGet, hd], by norm_num⟩
    | some v =>
      have hint := hqs v hd
      cases v with
      | int n =>
        refine ⟨n, by simp [configGet, hd], ?_⟩
        rw [presentAndLeZero, hd] at h7
        simp only [pyLeZero, Except.ok.injEq] at h7
        exact lt_of_not_le (of_decide_eq_false h7)
      | str s => exact absurd hint (by simp [isIntVal])
      | float q => exact absurd hint (by simp [isIntVal])
      | bool b => exact absurd hint (by simp [isIntVal])
      | pynone => exact absurd hint (by simp [isIntVal])
      | callback i => exact absurd hint (by simp [isIntVal])
  · rw [dget_mergedOf_max_retries]
    cases hd : dget c "max_retries" with
    | none => exact ⟨3, by simp [configGet, hd], by norm_num⟩
    | some v =>
      have hint := hmr v hd
      cases v with
      | int n =>
        refine ⟨n, by simp [configGet, hd], ?_⟩
        rw [presentAndLtZero, hd] at h8
        simp only [pyLtZero, Except.ok.injEq] at h8
        exact le_of_not_lt (of_decide_eq_false h8)
      | str s => exact absurd hint (by simp [isIntVal])
      | float q => exact absurd hint (by simp [isIntVal])
      | bool b => exact absurd hint (by simp [isIntVal])
      | pynone => exact absurd hint (by simp [isIntVal])
      | callback i => exact absurd hint (by simp [isIntVal])
  · rw [dget_mergedOf_capture]
    cases hd : dget c "capture_source_location" with
    | none => exact ⟨false, by simp [configGet, hd]⟩
    | some v =>
      have hbool := hcs v hd
      cases v with
      | bool b => exact ⟨b, by simp [configGet, hd]⟩
      | str s => exact absurd hbool (by simp [isBoolVal])
      | int n => exact absurd hbool (by simp [isBoolVal])
      | float q => exact absurd hbool (by simp [isBoolVal])
      | pynone => exact absurd hbool (by simp [isBoolVal])
      | callback i => exact absurd hbool (by simp [isBoolVal])

/-- Witness for C4 amended: the minimal valid config (all optional fields
absent, so the typing hypotheses hold vacuously). -/
theorem typed_output_on_typed_input_witness :
    (∃ s, dget (mergedOf [("api_key", .str goodKey),
        ("endpoint", .str "https://ingest.example.com")]) "api_key" =
        some (.str s) ∧ validate_api_key_format (.str s) = true) ∧
    (∃ s, dget (mergedOf [("api_key", .str goodKey),
        ("endpoint", .str "https://ingest.example.com")]) "endpoint" =
        some (.str s) ∧ _is_valid_url (.str s) = true) ∧
    (∃ n : Int, dget (mergedOf [("api_key", .str goodKey),
        ("endpoint", .str "https://ingest.example.com")]) "batch_size" =
        some (.int n) ∧ 0 < n) ∧
    (∃ v, dget (mergedOf [("api_key", .str goodKey),
        ("endpoint", .str "https://ingest.example.com")]) "flush_interval" =
        some v ∧ isNumVal v = true ∧ pyNumPos v = true) ∧
    (∃ n : Int, dget (mergedOf [("api_key", .str goodKey),
        ("endpoint", .str "https://ingest.example.com")]) "max_queue_size" =
        some (.int n) ∧ 0 < n) ∧
    (∃ n : Int, dget (mergedOf [("api_key", .str goodKey),
        ("endpoint", .str "https://ingest.example.com")]) "max_retries" =
        some (.int n) ∧ 0 ≤ n) ∧
    (∃ b : Bool, dget (mergedOf [("api_key", .str goodKey),
        ("endpoint", .str "https://ingest.example.com")])
        "capture_source_location" = some (.bool b)) :=
  typed_output_on_typed_input
    [("api_key", .str goodKey), ("endpoint", .str "https://ingest.example.com")]
    _ (by rfl)
    (by intro v hv; exact absurd hv (by simp [dget]))
    (by intro v hv; exact absurd hv (by simp [dget]))
    (by intro v hv; exact absurd hv (by simp [dget]))
    (by intro v hv; exact absurd hv (by simp [dget]))
    (by intro v hv; exact absurd hv (by simp [dget]))

/-! ### The API-key predicate versus the spec regex -/

theorem dropLast_append_of_getLast? {l : List Char} {a : Char}
    (h : l.getLast? = some a) : l.dropLast ++ [a] = l := by
  have hne : l ≠ [] := by rintro rfl; simp at h
  have hd := List.dropLast_append_getLast hne
  rw [List.getLast?_eq_getLast l hne] at h
  rw [Option.some_inj.mp h] at hd
  exact hd

/-- C5: the API-key predicate is claimed to accept exactly the strings of the
shape `lw_` + 32 class characters, no more, no fewer.  The code evaluated at a
concrete 36-character input ending in a newline returns `true` (Python `$`
matches just before a trailing newline), although the input does not have the
exact shape. -/
theorem api_key_exact_shape_counterexample :
    validate_api_key_format (.str (goodKey ++ "\n")) = true ∧
    specApiKeyShape (goodKey ++ "\n") = false := by
  constructor <;> decide

/-- Exact semantics of the key predicate: it returns true exactly on strings
that match the spec shape `lw_[A-Za-z0-9_-]{32}` either exactly or followed
by one trailing newline (Python `re` `$` semantics); every non-string or
empty value yields false, and the predicate is total, so it never raises. -/
theorem api_key_format_characterization (v : PyVal) :
    validate_api_key_format v = true ↔
      ∃ s, v = .str s ∧
        (specApiKeyShape s = true ∨
          ∃ t, specApiKeyShape t = true ∧ s = t ++ "\n") := by
  cases v with
  | int n => simp [validate_api_key_format]
  | float q => simp [validate_api_key_format]
  | bool b => simp [validate_api_key_format]
  | pynone => simp [validate_api_key_format]
  | callback i => simp [validate_api_key_format]
  | str s =>
    simp only [PyVal.str.injEq, exists_eq_left']
    rcases Bool.eq_false_or_eq_true s.isEmpty with hemp | hemp
    case inl =>
      have hs : s = "" := (String.isEmpty_iff s).mp hemp
      subst hs
      constructor
      · intro h
        exact absurd h (by decide)
      · rintro (hspec | ⟨t, ht, hcat⟩)
        · exact absurd hspec (by decide)
        · have : ("" : String).data = t.data ++ ['\n'] := by rw [hcat]; rfl
          simp at this
    case inr =>
      have hlhs : validate_api_key_format (.str s) = apiKeyMatch s := by
        simp [validate_api_key_format, pyTruthy, hemp]
      rw [hlhs]
      unfold apiKeyMatch
      constructor
      · intro h
        rcases Bool.or_eq_true_iff.mp h with hb | htail
        · exact Or.inl ((specApiKeyShape_iff_body s).mpr hb)
        · rcases Bool.and_eq_true_iff.mp htail with ⟨hl, hb⟩
          have hl' : s.data.getLast? = some '\n' := by simpa using hl
          refine Or.inr ⟨String.mk s.data.dropLast, ?_, ?_⟩
          · exact (specApiKeyShape_iff_body _).mpr hb
          · apply String.ext
            show s.data = s.data.dropLast ++ ['\n']
            exact (dropLast_append_of_getLast? hl').symm
      · rintro (hspec | ⟨t, ht, rfl⟩)
        · exact Bool.or_eq_true_iff.mpr
            (Or.inl ((specApiKeyShape_iff_body s).mp hspec))
        · apply Bool.or_eq_true_iff.mpr
          apply Or.inr
          have hdata : (t ++ "\n").data = t.data ++ ['\n'] := rfl
          apply Bool.and_eq_true_iff.mpr
          constructor
          · simp [hdata, List.getLast?_concat]
          · rw [hdata, List.dropLast_concat]
            exact (specApiKeyShape_iff_body t).mp ht

/-- Concrete instance of the characterization: `goodKey` is accepted (the
exact-shape side). -/
theorem api_key_format_characterization_witness :
    validate_api_key_format (.str goodKey) = true :=
  (api_key_format_characterization (.str goodKey)).mpr
    ⟨goodKey, rfl, Or.inl (by decide)⟩

end Logwell
